import Mathlib

/-!
Verification of the HUB75 LED-matrix driver specification against the
repository's example configuration header (`src/main/common/pins_example.h`).

The example header is the repository's only source file; the driving engine
(`hub75.h`) is referenced but not present.  Definitions taken directly from
`pins_example.h` keep their source names.  Components of the engine that the
claims need (configuration validator, bit-plane encoder, scan/address
sequencer, chain mapper, the `HUB75_CONFIG_DEFAULT()` baseline) are modelled
from the specification; each such definition carries a doc comment starting
with `Modelled from the spec:`.
-/

/-- The HUB75 pin-assignment record.  The field set is taken from the
accesses `printPinConfig` makes in `pins_example.h` (fields `r1,g1,b1,r2,g2,
b2,a,b,c,d,e,lat,oe,clk`); values are GPIO numbers, with `-1` the "unused"
sentinel for address lines not required by the scan pattern. -/
structure hub75_pins_t where
  r1 : Int
  g1 : Int
  b1 : Int
  r2 : Int
  g2 : Int
  b2 : Int
  a : Int
  b : Int
  c : Int
  d : Int
  e : Int
  lat : Int
  oe : Int
  clk : Int
deriving DecidableEq

/-- Scan patterns enumerated by the spec (§3): 1/8, 1/16, 1/32. -/
inductive hub75_scan_pattern_t where
  | HUB75_SCAN_1_8
  | HUB75_SCAN_1_16
  | HUB75_SCAN_1_32
deriving DecidableEq

/-- Gamma modes enumerated by the spec (§3): none, CIE1931, custom table. -/
inductive hub75_gamma_mode_t where
  | HUB75_GAMMA_NONE
  | HUB75_GAMMA_CIE1931
  | HUB75_GAMMA_CUSTOM
deriving DecidableEq

/-- The HUB75 configuration record, with the fields enumerated in spec §3 and
assigned throughout `pins_example.h`. -/
structure hub75_config_t where
  width : Nat
  height : Nat
  chain_length : Nat
  scan_pattern : hub75_scan_pattern_t
  pins : hub75_pins_t
  output_clock_speed : Nat
  bit_depth : Nat
  min_refresh_rate : Nat
  double_buffer : Bool
  temporal_dither : Bool
  gamma_mode : hub75_gamma_mode_t
  brightness : Nat
  latch_blanking : Nat
  clk_phase_inverted : Bool
deriving DecidableEq

/-- Modelled from the spec: the `HUB75_CONFIG_DEFAULT()` baseline of `hub75.h`
is not under `src/`.  Spec §6 says every field has a defined default and §3
pins the invariants (`chain_length ≥ 1`, pins default to the `-1` unused
sentinel).  The remaining concrete values are immaterial to the theorems
below: every property that depends on the baseline is quantified over an
arbitrary baseline record instead. -/
def HUB75_CONFIG_DEFAULT : hub75_config_t :=
  { width := 64
    height := 32
    chain_length := 1
    scan_pattern := .HUB75_SCAN_1_16
    pins := { r1 := -1, g1 := -1, b1 := -1, r2 := -1, g2 := -1, b2 := -1
              a := -1, b := -1, c := -1, d := -1, e := -1
              lat := -1, oe := -1, clk := -1 }
    output_clock_speed := 20000000
    bit_depth := 8
    min_refresh_rate := 60
    double_buffer := false
    temporal_dither := false
    gamma_mode := .HUB75_GAMMA_NONE
    brightness := 255
    latch_blanking := 1
    clk_phase_inverted := false }

/-- Body of `getDefaultConfig_ESP32` (pins_example.h, example 1), abstracted
over the `HUB75_CONFIG_DEFAULT()` baseline it starts from. -/
def getDefaultConfig_ESP32_from (config : hub75_config_t) : hub75_config_t :=
  { config with
    width := 64
    height := 64
    scan_pattern := .HUB75_SCAN_1_32
    pins := { r1 := 25, g1 := 26, b1 := 27
              r2 := 14, g2 := 12, b2 := 13
              a := 23, b := 19, c := 5, d := 17, e := 18
              lat := 4, oe := 15, clk := 16 }
    output_clock_speed := 20000000
    bit_depth := 8
    min_refresh_rate := 60
    double_buffer := false
    temporal_dither := false
    gamma_mode := .HUB75_GAMMA_CIE1931
    brightness := 255 }

/-- Example 1: typical 64x64 panel (1/32 scan) on ESP32. -/
def getDefaultConfig_ESP32 : hub75_config_t :=
  getDefaultConfig_ESP32_from HUB75_CONFIG_DEFAULT

/-- Body of `getDefaultConfig_32x32` (pins_example.h, example 2), abstracted
over the `HUB75_CONFIG_DEFAULT()` baseline it starts from.  Only `width`,
`height`, `scan_pattern` and the fourteen pins are assigned. -/
def getDefaultConfig_32x32_from (config : hub75_config_t) : hub75_config_t :=
  { config with
    width := 32
    height := 32
    scan_pattern := .HUB75_SCAN_1_16
    pins := { r1 := 25, g1 := 26, b1 := 27
              r2 := 14, g2 := 12, b2 := 13
              a := 23, b := 19, c := 5, d := 17, e := -1
              lat := 4, oe := 15, clk := 16 } }

/-- Example 2: 32x32 panel (1/16 scan) on ESP32. -/
def getDefaultConfig_32x32 : hub75_config_t :=
  getDefaultConfig_32x32_from HUB75_CONFIG_DEFAULT

/-- Body of `getDefaultConfig_ESP32S3` (pins_example.h, example 3). -/
def getDefaultConfig_ESP32S3_from (config : hub75_config_t) : hub75_config_t :=
  { config with
    width := 64
    height := 64
    scan_pattern := .HUB75_SCAN_1_32
    pins := { r1 := 1, g1 := 2, b1 := 3
              r2 := 4, g2 := 5, b2 := 6
              a := 7, b := 8, c := 9, d := 10, e := 11
              lat := 12, oe := 13, clk := 14 }
    double_buffer := true
    temporal_dither := true
    bit_depth := 10 }

/-- Example 3: ESP32-S3 with double buffering and dithering. -/
def getDefaultConfig_ESP32S3 : hub75_config_t :=
  getDefaultConfig_ESP32S3_from HUB75_CONFIG_DEFAULT

/-- Body of `getDefaultConfig_ESP32C6` (pins_example.h, example 4). -/
def getDefaultConfig_ESP32C6_from (config : hub75_config_t) : hub75_config_t :=
  { config with
    width := 64
    height := 64
    scan_pattern := .HUB75_SCAN_1_32
    pins := { r1 := 0, g1 := 1, b1 := 2
              r2 := 3, g2 := 4, b2 := 5
              a := 6, b := 7, c := 8, d := 9, e := 10
              lat := 11, oe := 12, clk := 13 }
    output_clock_speed := 40000000 }

/-- Example 4: ESP32-C6 with PARLIO. -/
def getDefaultConfig_ESP32C6 : hub75_config_t :=
  getDefaultConfig_ESP32C6_from HUB75_CONFIG_DEFAULT

/-- Body of `getDefaultConfig_Chained` (pins_example.h, example 5). -/
def getDefaultConfig_Chained_from (config : hub75_config_t) : hub75_config_t :=
  { config with
    width := 128
    height := 64
    scan_pattern := .HUB75_SCAN_1_32
    pins := { r1 := 25, g1 := 26, b1 := 27
              r2 := 14, g2 := 12, b2 := 13
              a := 23, b := 19, c := 5, d := 17, e := 18
              lat := 4, oe := 15, clk := 16 } }

/-- Example 5: chained panels (128x64 as two 64x64 panels side by side). -/
def getDefaultConfig_Chained : hub75_config_t :=
  getDefaultConfig_Chained_from HUB75_CONFIG_DEFAULT

/-- Body of `getUserConfig_ESP32S3_Dual64x64` (pins_example.h, example 6). -/
def getUserConfig_ESP32S3_Dual64x64_from (config : hub75_config_t) : hub75_config_t :=
  { config with
    width := 64
    height := 64
    chain_length := 2
    scan_pattern := .HUB75_SCAN_1_32
    pins := { r1 := 1, g1 := 5, b1 := 6
              r2 := 7, g2 := 13, b2 := 9
              a := 16, b := 48, c := 47, d := 21, e := 38
              lat := 8, oe := 4, clk := 18 }
    output_clock_speed := 20000000
    latch_blanking := 1
    clk_phase_inverted := false
    bit_depth := 8
    min_refresh_rate := 60
    double_buffer := false
    temporal_dither := false
    gamma_mode := .HUB75_GAMMA_CIE1931
    brightness := 255 }

/-- Example 6: ESP32-S3 with two 64x64 chained panels. -/
def getUserConfig_ESP32S3_Dual64x64 : hub75_config_t :=
  getUserConfig_ESP32S3_Dual64x64_from HUB75_CONFIG_DEFAULT

/-! ## Configuration Validator (spec §4.1, §7) -/

/-- Modelled from the spec: the typed rejection of the Configuration
Validator (§4.1, §7 taxonomy category 1, `ConfigurationError`). -/
inductive ConfigurationError where
  | invalidGeometry
  | insufficientAddressLines
  | clockOutOfRange
  | invalidBitDepth
  | unattainableRefreshRate
deriving DecidableEq

/-- Modelled from the spec: number of row pairs a scan pattern drives
(glossary: "1/32 scan = 32 row-pairs"). -/
def scanRows : hub75_scan_pattern_t → Nat
  | .HUB75_SCAN_1_8 => 8
  | .HUB75_SCAN_1_16 => 16
  | .HUB75_SCAN_1_32 => 32

/-- Modelled from the spec: address lines A..E required by a scan pattern
(§3: "1/32 requires 5 lines A–E"; a binary counter across the lines, so a
1/16 pattern needs 4 and a 1/8 pattern needs 3). -/
def requiredAddressLines : hub75_scan_pattern_t → Nat
  | .HUB75_SCAN_1_8 => 3
  | .HUB75_SCAN_1_16 => 4
  | .HUB75_SCAN_1_32 => 5

/-- Modelled from the spec: the number of address pins supplied as not
"unused" (§6: the unused sentinel is `-1`). -/
def activeAddressLines (p : hub75_pins_t) : Nat :=
  (if p.a ≠ -1 then 1 else 0) + (if p.b ≠ -1 then 1 else 0) +
  (if p.c ≠ -1 then 1 else 0) + (if p.d ≠ -1 then 1 else 0) +
  (if p.e ≠ -1 then 1 else 0)

/-- Modelled from the spec: the hardware-supported output-clock range
(§4.1).  `pins_example.h` exhibits 20 MHz as a typical rate and 40 MHz as
the fastest ("40 MHz possible with PARLIO"). -/
def HUB75_MIN_CLOCK_HZ : Nat := 1000000

/-- Modelled from the spec: upper end of the supported clock range. -/
def HUB75_MAX_CLOCK_HZ : Nat := 40000000

/-- Modelled from the spec: §4.4 counts `height / 2^scan_divisor` row pairs;
per the standard HUB75 dual-row convention two rows are driven per address
step, so the divisor is 1. -/
def scanDivisor : Nat := 1

/-- Modelled from the spec: row pairs enumerated per frame (§4.4). -/
def rowPairCount (c : hub75_config_t) : Nat :=
  c.height / 2 ^ scanDivisor

/-- Modelled from the spec: output clocks needed for one full BCM frame
(§4.6: all row-pairs × all bit-plane durations, including blanking
overhead).  Per row pair and bit plane `k` the engine clocks out the full
chained row (`width × chain_length` pixel clocks), waits `latch_blanking`
cycles after the latch, and displays the plane for `2^k` time units (§4.3),
a unit being one output clock. -/
def frameClocks (c : hub75_config_t) : Nat :=
  rowPairCount c *
    ((List.range c.bit_depth).map
      (fun k => c.width * c.chain_length + c.latch_blanking + 2 ^ k)).sum

/-- Modelled from the spec: the Configuration Validator (§4.1).  Checks, in
the spec's order: geometry (width/height positive, `chain_length ≥ 1`,
height consistent with the scan pattern's row pairs), enough non-unused
address pins for the scan pattern, clock speed within the supported range,
`bit_depth ≥ 1`, and that the BCM frame fits in `1/min_refresh_rate`
seconds (`frameClocks × min_refresh_rate ≤ output_clock_speed`). -/
def validate (c : hub75_config_t) : Except ConfigurationError Unit :=
  if c.width = 0 ∨ c.height = 0 ∨ c.chain_length = 0 ∨
      c.height ≠ 2 * scanRows c.scan_pattern then
    .error .invalidGeometry
  else if activeAddressLines c.pins < requiredAddressLines c.scan_pattern then
    .error .insufficientAddressLines
  else if c.output_clock_speed < HUB75_MIN_CLOCK_HZ ∨
      HUB75_MAX_CLOCK_HZ < c.output_clock_speed then
    .error .clockOutOfRange
  else if c.bit_depth = 0 then
    .error .invalidBitDepth
  else if c.output_clock_speed < frameClocks c * c.min_refresh_rate then
    .error .unattainableRefreshRate
  else
    .ok ()

/-- Whether the validator rejected the configuration. -/
def isConfigError (r : Except ConfigurationError Unit) : Bool :=
  match r with
  | .error _ => true
  | .ok _ => false

/-! ## Chain Mapper (spec §4.5) -/

/-- Modelled from the spec: logical canvas width with chained panels
(§4.5: "the logical width is chain_length × single-panel width"). -/
def logicalWidth (c : hub75_config_t) : Nat :=
  c.width * c.chain_length

/-- Modelled from the spec: physical panel a logical column falls on
(§8: "logical column x maps to panel ⌊x/W⌋"). -/
def panelIndex (w x : Nat) : Nat := x / w

/-- Modelled from the spec: column within that panel
(§8: "... and local column x mod W"). -/
def localColumn (w x : Nat) : Nat := x % w

/-- Modelled from the spec: the Chain Mapper concatenates per-panel row data
in physical chain order, panel 0 first (§4.5). -/
def concatRowData (rows : List (List Bool)) : List Bool :=
  rows.flatten

/-! ## Bit-Plane Encoder (spec §4.3) -/

/-- Modelled from the spec: plane `k` of the BCM decomposition is the `k`-th
bit of the preprocessed intensity (§4.3), for `k = 0..N-1`. -/
def bitPlanes (v n : Nat) : List Bool :=
  (List.range n).map (fun k => v.testBit k)

/-- Modelled from the spec: plane `k` is displayed for a duration
proportional to `2^k` time units (§4.3). -/
def planeDuration (k : Nat) : Nat := 2 ^ k

/-- Sum of display durations weighted by bit value, starting at plane `k`:
the quantity the eye integrates (§4.3, §8 round-trip property). -/
def bcmSumFrom : Nat → List Bool → Nat
  | _, [] => 0
  | k, bit :: rest => (if bit then planeDuration k else 0) + bcmSumFrom (k + 1) rest

/-- Total displayed energy of a plane list, plane 0 first. -/
def bcmSum (planes : List Bool) : Nat :=
  bcmSumFrom 0 planes

/-! ## Scan/Address Sequencer (spec §4.4) -/

/-- Modelled from the spec: levels asserted on the active address lines for
row-pair index `i` — a binary counter sized to exactly the lines declared
active (§4.4), least-significant line (A) first. -/
def addressBits (lines i : Nat) : List Bool :=
  (List.range lines).map (fun k => i.testBit k)

/-- Modelled from the spec: the Scan/Address Sequencer's enumeration for one
frame (§4.4): for each row-pair index `i` of the `height / 2^scan_divisor`
pairs, the address-line pattern together with the frame-buffer rows driven —
upper-half row `i` paired with lower-half row `i + height/2`. -/
def rowPairSeq (c : hub75_config_t) : List (List Bool × Nat × Nat) :=
  (List.range (c.height / 2 ^ scanDivisor)).map
    (fun i => (addressBits (requiredAddressLines c.scan_pattern) i,
               i, i + c.height / 2))

/-- The frame-buffer rows the sequencer drives during one frame: the
upper-half rows followed by the lower-half rows. -/
def coveredRows (c : hub75_config_t) : List Nat :=
  (rowPairSeq c).map (fun t => t.2.1) ++ (rowPairSeq c).map (fun t => t.2.2)

/-! ## Pin inspection (`printPinConfig`, pins_example.h) -/

/-- The fourteen signals of the pin record with their assigned values, in the
order `printPinConfig` prints them. -/
def signalValues (pins : hub75_pins_t) : List (String × Int) :=
  [("R1", pins.r1), ("G1", pins.g1), ("B1", pins.b1),
   ("R2", pins.r2), ("G2", pins.g2), ("B2", pins.b2),
   ("A", pins.a), ("B", pins.b), ("C", pins.c), ("D", pins.d), ("E", pins.e),
   ("LAT", pins.lat), ("OE", pins.oe), ("CLK", pins.clk)]

/-- `printPinConfig` from pins_example.h: the debug text it emits on stdout,
modelled as the returned string (each `%d` rendered by `toString`). -/
def printPinConfig (pins : hub75_pins_t) : String :=
  "HUB75 Pin Configuration:\n" ++
  "  Data (Upper): R1=" ++ toString pins.r1 ++ ", G1=" ++ toString pins.g1 ++
    ", B1=" ++ toString pins.b1 ++ "\n" ++
  "  Data (Lower): R2=" ++ toString pins.r2 ++ ", G2=" ++ toString pins.g2 ++
    ", B2=" ++ toString pins.b2 ++ "\n" ++
  "  Address: A=" ++ toString pins.a ++ ", B=" ++ toString pins.b ++
    ", C=" ++ toString pins.c ++ ", D=" ++ toString pins.d ++
    ", E=" ++ toString pins.e ++ "\n" ++
  "  Control: LAT=" ++ toString pins.lat ++ ", OE=" ++ toString pins.oe ++
    ", CLK=" ++ toString pins.clk ++ "\n"

/-- `s` contains `t` as a contiguous fragment. -/
def containsFragment (s t : String) : Prop :=
  ∃ u v : String, s = u ++ (t ++ v)

/-! ## Auxiliary views used by the invariant claims -/

/-- All fourteen pin values of a pin record, in declaration order. -/
def pinList (pins : hub75_pins_t) : List Int :=
  [pins.r1, pins.g1, pins.b1, pins.r2, pins.g2, pins.b2,
   pins.a, pins.b, pins.c, pins.d, pins.e, pins.lat, pins.oe, pins.clk]

/-- The pin values actually assigned (not the `-1` unused sentinel) are
pairwise distinct. -/
def assignedPinsDistinct (pins : hub75_pins_t) : Prop :=
  ((pinList pins).filter (fun x => x ≠ -1)).Nodup

instance (pins : hub75_pins_t) : Decidable (assignedPinsDistinct pins) := by
  unfold assignedPinsDistinct
  infer_instance

/-- A call of a configuration constructor threaded through an explicit
module-state `σ` standing for any global mutable storage.  The bodies in
`pins_example.h` only initialise and return a local record — they read and
write no module-level state — so the embedded call leaves `σ` untouched and
its result depends only on the `HUB75_CONFIG_DEFAULT()` baseline. -/
def callWithState (S : Type) (f : hub75_config_t → hub75_config_t)
    (baseline : hub75_config_t) (σ : S) : hub75_config_t × S :=
  (f baseline, σ)

/-- Equality of validation results is decidable (used to evaluate the
validator on concrete configurations). -/
instance : DecidableEq (Except ConfigurationError Unit) := fun x y =>
  match x, y with
  | .ok u, .ok v =>
      if h : u = v then isTrue (by rw [h]) else isFalse (by intro hc; cases hc; exact h rfl)
  | .error u, .error v =>
      if h : u = v then isTrue (by rw [h]) else isFalse (by intro hc; cases hc; exact h rfl)
  | .ok _, .error _ => isFalse (by intro hc; cases hc)
  | .error _, .ok _ => isFalse (by intro hc; cases hc)

/-! ## Theorems -/

theorem bcmSumFrom_append (k : Nat) (l : List Bool) (bit : Bool) :
    bcmSumFrom k (l ++ [bit]) = bcmSumFrom k l + (if bit then 2 ^ (k + l.length) else 0) := by
  induction l generalizing k with
  | nil => simp [bcmSumFrom, planeDuration]
  | cons hd tl ih =>
      rw [show bcmSumFrom k ((hd :: tl) ++ [bit]) =
            (if hd then planeDuration k else 0) + bcmSumFrom (k + 1) (tl ++ [bit]) from rfl,
          show bcmSumFrom k (hd :: tl) =
            (if hd then planeDuration k else 0) + bcmSumFrom (k + 1) tl from rfl,
          ih, show (hd :: tl).length = tl.length + 1 from rfl,
          show k + 1 + tl.length = k + (tl.length + 1) from by omega, Nat.add_assoc]

theorem bcmSum_bitPlanes (v n : Nat) : bcmSum (bitPlanes v n) = v % 2 ^ n := by
  induction n with
  | zero => simp [bcmSum, bitPlanes, bcmSumFrom, Nat.mod_one]
  | succ m ih =>
      have hsplit : bitPlanes v (m + 1) = bitPlanes v m ++ [v.testBit m] := by
        simp [bitPlanes, List.range_succ]
      have hlen : (bitPlanes v m).length = m := by simp [bitPlanes]
      rw [hsplit, bcmSum, bcmSumFrom_append, ← bcmSum, ih, hlen, Nat.zero_add,
        pow_succ, Nat.mod_mul]
      rcases Nat.mod_two_eq_zero_or_one (v / 2 ^ m) with h | h
      · rw [Nat.testBit_to_div_mod]
        simp [h]
      · rw [Nat.testBit_to_div_mod]
        simp [h]

/-- C4: for every intensity `v` in range and every bit depth `N`, the
Bit-Plane Encoder produces exactly `N` binary planes, plane `k` holding the
`k`-th bit of `v`, and the sum over planes of bit value times display
duration (`2^k` time units) reconstructs `v` exactly — within one unit of
the smallest representable step. -/
theorem bitPlaneEncoder_roundTrip (v n : Nat) (h : v < 2 ^ n) :
    (bitPlanes v n).length = n ∧
    (∀ k, k < n → (bitPlanes v n)[k]? = some (v.testBit k)) ∧
    bcmSum (bitPlanes v n) = v := by
  refine ⟨by simp [bitPlanes], ?_, ?_⟩
  · intro k hk
    simp [bitPlanes, List.getElem?_range, hk]
  · rw [bcmSum_bitPlanes, Nat.mod_eq_of_lt h]

theorem bitPlaneEncoder_roundTrip_witness :
    (5 : Nat) < 2 ^ 3 ∧ bcmSum (bitPlanes 5 3) = 5 :=
  ⟨by decide, (bitPlaneEncoder_roundTrip 5 3 (by decide)).2.2⟩

/-- C1: for every PanelConfig passing the remaining validity checks
(positive dimensions, chain length ≥ 1, height consistent with the scan
geometry, supported clock, positive bit depth), the Configuration Validator
accepts iff the scan pattern's required address-line count is satisfied by
the non-unused address pins and the BCM frame fits in `1/min_refresh_rate`
seconds; and the config built by `getDefaultConfig_ESP32` (width 64, height
64, 1/32 scan, bit depth 8, 60 Hz minimum, 20 MHz clock) is accepted, with
a frame time of at most 16.67 ms (`frameClocks / clock ≤ 1667/100000` s). -/
theorem validator_accepts_iff_address_and_timing :
    (∀ c : hub75_config_t,
        c.width ≠ 0 → c.height ≠ 0 → c.chain_length ≠ 0 →
        c.height = 2 * scanRows c.scan_pattern →
        HUB75_MIN_CLOCK_HZ ≤ c.output_clock_speed →
        c.output_clock_speed ≤ HUB75_MAX_CLOCK_HZ →
        c.bit_depth ≠ 0 →
        (validate c = .ok () ↔
          requiredAddressLines c.scan_pattern ≤ activeAddressLines c.pins ∧
          frameClocks c * c.min_refresh_rate ≤ c.output_clock_speed)) ∧
    getDefaultConfig_ESP32.width = 64 ∧
    getDefaultConfig_ESP32.height = 64 ∧
    getDefaultConfig_ESP32.scan_pattern = .HUB75_SCAN_1_32 ∧
    getDefaultConfig_ESP32.bit_depth = 8 ∧
    getDefaultConfig_ESP32.min_refresh_rate = 60 ∧
    getDefaultConfig_ESP32.output_clock_speed = 20000000 ∧
    validate getDefaultConfig_ESP32 = .ok () ∧
    frameClocks getDefaultConfig_ESP32 * 100000 ≤
      1667 * getDefaultConfig_ESP32.output_clock_speed := by
  refine ⟨?_, by decide, by decide, by decide, by decide, by decide, by decide,
    by decide, by decide⟩
  intro c hw hh hcl hs hlo hhi hbd
  unfold validate
  rw [if_neg (by omega)]
  by_cases haddr : activeAddressLines c.pins < requiredAddressLines c.scan_pattern
  · rw [if_pos haddr]
    exact iff_of_false (by simp) (fun hx => by omega)
  · rw [if_neg haddr]
    rw [if_neg (show ¬(c.output_clock_speed < HUB75_MIN_CLOCK_HZ ∨
        HUB75_MAX_CLOCK_HZ < c.output_clock_speed) by omega)]
    rw [if_neg hbd]
    by_cases hr : c.output_clock_speed < frameClocks c * c.min_refresh_rate
    · rw [if_pos hr]
      exact iff_of_false (by simp) (fun hx => by omega)
    · rw [if_neg hr]
      exact iff_of_true rfl ⟨by omega, by omega⟩

theorem validator_accepts_iff_witness :
    validate getUserConfig_ESP32S3_Dual64x64 = .ok () ↔
      requiredAddressLines getUserConfig_ESP32S3_Dual64x64.scan_pattern ≤
        activeAddressLines getUserConfig_ESP32S3_Dual64x64.pins ∧
      frameClocks getUserConfig_ESP32S3_Dual64x64 *
          getUserConfig_ESP32S3_Dual64x64.min_refresh_rate ≤
        getUserConfig_ESP32S3_Dual64x64.output_clock_speed :=
  validator_accepts_iff_address_and_timing.1 getUserConfig_ESP32S3_Dual64x64
    (by decide) (by decide) (by decide) (by decide) (by decide) (by decide) (by decide)

/-- C3: every config whose scan pattern is 1/32 but whose address pin E is
the unused sentinel `-1` is rejected by the validator with a
`ConfigurationError`; the 1/16-scan `getDefaultConfig_32x32` (E = -1) is
not rejected for that reason, since its four non-unused address pins
satisfy the 1/16 pattern's requirement. -/
theorem scan32_missing_E_rejected :
    (∀ c : hub75_config_t, c.scan_pattern = .HUB75_SCAN_1_32 → c.pins.e = -1 →
        isConfigError (validate c) = true) ∧
    requiredAddressLines getDefaultConfig_32x32.scan_pattern ≤
      activeAddressLines getDefaultConfig_32x32.pins := by
  refine ⟨?_, by decide⟩
  intro c hp he
  have hact : activeAddressLines c.pins < 5 := by
    unfold activeAddressLines
    rw [he]
    norm_num
    split_ifs <;> omega
  unfold validate
  by_cases h0 : c.width = 0 ∨ c.height = 0 ∨ c.chain_length = 0 ∨
      c.height ≠ 2 * scanRows c.scan_pattern
  · rw [if_pos h0]
    rfl
  · rw [if_neg h0]
    have hlt : activeAddressLines c.pins < requiredAddressLines c.scan_pattern := by
      rw [hp]
      exact hact
    rw [if_pos hlt]
    rfl

theorem scan32_missing_E_rejected_witness :
    isConfigError (validate { getDefaultConfig_ESP32 with
      pins := { getDefaultConfig_ESP32.pins with e := -1 } }) = true :=
  scan32_missing_E_rejected.1
    { getDefaultConfig_ESP32 with
      pins := { getDefaultConfig_ESP32.pins with e := -1 } } rfl rfl

/-- C2: for two chained panels of width `W`, the Chain Mapper's concatenated
row data is `2W` entries long per color lane and reading logical column `x`
reads physical panel `⌊x/W⌋` at local column `x mod W`; concretely, the
dual-panel example has `chain_length = 2`, panel width 64, logical canvas
width 128, and logical `x = 100` maps to panel 1, local column 36. -/
theorem chainMapper_two_panels :
    (∀ (w x : Nat) (row0 row1 : List Bool),
        row0.length = w → row1.length = w → x < 2 * w →
        (concatRowData [row0, row1]).length = 2 * w ∧
        (concatRowData [row0, row1])[x]? =
          ([row0, row1][panelIndex w x]?).bind (fun row => row[localColumn w x]?)) ∧
    getUserConfig_ESP32S3_Dual64x64.chain_length = 2 ∧
    getUserConfig_ESP32S3_Dual64x64.width = 64 ∧
    logicalWidth getUserConfig_ESP32S3_Dual64x64 = 128 ∧
    panelIndex 64 100 = 1 ∧ localColumn 64 100 = 36 := by
  refine ⟨?_, by decide, by decide, by decide, by decide, by decide⟩
  intro w x row0 row1 h0 h1 hx
  have hcat : concatRowData [row0, row1] = row0 ++ row1 := by simp [concatRowData]
  constructor
  · rw [hcat, List.length_append, h0, h1]
    omega
  · rw [hcat]
    by_cases hlt : x < w
    · have hp : panelIndex w x = 0 := Nat.div_eq_of_lt hlt
      have hl : localColumn w x = x := Nat.mod_eq_of_lt hlt
      rw [List.getElem?_append_left (by rw [h0]; exact hlt), hp, hl]
      simp
    · push_neg at hlt
      have hp : panelIndex w x = 1 := by
        unfold panelIndex
        exact Nat.div_eq_of_lt_le (by omega) (by omega)
      have hl : localColumn w x = x - w := by
        unfold localColumn
        rw [Nat.mod_eq_sub_mod hlt]
        exact Nat.mod_eq_of_lt (by omega)
      rw [List.getElem?_append_right (by rw [h0]; exact hlt), hp, hl, h0]
      simp

theorem chainMapper_two_panels_witness :
    (concatRowData [List.replicate 64 true, List.replicate 64 false]).length = 2 * 64 ∧
    (concatRowData [List.replicate 64 true, List.replicate 64 false])[100]? =
      ([List.replicate 64 true, List.replicate 64 false][panelIndex 64 100]?).bind
        (fun row => row[localColumn 64 100]?) :=
  chainMapper_two_panels.1 64 100 (List.replicate 64 true) (List.replicate 64 false)
    (by simp) (by simp) (by decide)

theorem validate_ok_height {c : hub75_config_t} (h : validate c = .ok ()) :
    c.height = 2 * scanRows c.scan_pattern := by
  by_contra hne
  unfold validate at h
  rw [if_pos (Or.inr (Or.inr (Or.inr hne)))] at h
  exact Except.noConfusion h

theorem scanRows_eq_pow (p : hub75_scan_pattern_t) :
    scanRows p = 2 ^ requiredAddressLines p := by
  cases p <;> rfl

/-- C5: for every validated config, the Scan/Address Sequencer enumerates
exactly `height / 2^scan_divisor` row pairs, each with a distinct
address-line bit pattern, pairing upper-half row `r` with lower-half row
`r + height/2`, and covering every frame-buffer row exactly once per
frame. -/
theorem scanSequencer_rowPairs (c : hub75_config_t) (h : validate c = .ok ()) :
    (rowPairSeq c).length = c.height / 2 ^ scanDivisor ∧
    ((rowPairSeq c).map (fun t => t.1)).Nodup ∧
    (∀ t ∈ rowPairSeq c, t.2.2 = t.2.1 + c.height / 2) ∧
    (∀ r, r < c.height → (coveredRows c).count r = 1) := by
  have hh : c.height = 2 * scanRows c.scan_pattern := validate_ok_height h
  have hdiv : c.height / 2 ^ scanDivisor = scanRows c.scan_pattern := by
    simp only [scanDivisor, pow_one]
    omega
  have h2 : c.height / 2 = scanRows c.scan_pattern := by omega
  refine ⟨by simp [rowPairSeq], ?_, ?_, ?_⟩
  · have hmap : (rowPairSeq c).map (fun t => t.1) =
        (List.range (c.height / 2 ^ scanDivisor)).map
          (fun i => addressBits (requiredAddressLines c.scan_pattern) i) := by
      simp [rowPairSeq, List.map_map]
    rw [hmap]
    refine List.Nodup.map_on ?_ (List.nodup_range _)
    intro x hx y hy heq
    rw [List.mem_range, hdiv, scanRows_eq_pow] at hx hy
    apply Nat.eq_of_testBit_eq
    intro k
    by_cases hk : k < requiredAddressLines c.scan_pattern
    · have hcong := congrArg (fun l => l[k]?) heq
      simpa [addressBits, List.getElem?_range, hk] using hcong
    · push_neg at hk
      have hx2 : x < 2 ^ k := lt_of_lt_of_le hx (Nat.pow_le_pow_right (by norm_num) hk)
      have hy2 : y < 2 ^ k := lt_of_lt_of_le hy (Nat.pow_le_pow_right (by norm_num) hk)
      rw [Nat.testBit_lt_two_pow hx2, Nat.testBit_lt_two_pow hy2]
  · intro t ht
    simp only [rowPairSeq, List.mem_map, List.mem_range] at ht
    obtain ⟨i, _, rfl⟩ := ht
    rfl
  · intro r hr
    have hcover : coveredRows c =
        List.range (c.height / 2 ^ scanDivisor) ++
          (List.range (c.height / 2 ^ scanDivisor)).map
            (fun i => i + c.height / 2) := by
      simp [coveredRows, rowPairSeq, List.map_map, Function.comp_def]
    rw [hcover, List.count_append, hdiv, h2]
    rw [hh] at hr
    rcases Nat.lt_or_ge r (scanRows c.scan_pattern) with hrn | hrn
    · rw [List.count_eq_one_of_mem (List.nodup_range _) (List.mem_range.mpr hrn)]
      rw [List.count_eq_zero.mpr (by
        simp only [List.mem_map, List.mem_range, not_exists, not_and]
        intro i hi
        omega)]
    · rw [List.count_eq_zero.mpr (by
        simp only [List.mem_range]
        omega)]
      rw [List.count_eq_one_of_mem
        (List.Nodup.map (fun a bb hab => by omega) (List.nodup_range _))
        (List.mem_map.mpr ⟨r - scanRows c.scan_pattern,
          List.mem_range.mpr (by omega), by omega⟩)]

theorem scanSequencer_rowPairs_witness :
    (rowPairSeq getDefaultConfig_ESP32).length =
      getDefaultConfig_ESP32.height / 2 ^ scanDivisor ∧
    (coveredRows getDefaultConfig_ESP32).count 0 = 1 :=
  ⟨(scanSequencer_rowPairs getDefaultConfig_ESP32 (by decide)).1,
   (scanSequencer_rowPairs getDefaultConfig_ESP32 (by decide)).2.2.2 0 (by decide)⟩

/-- C6 counterexample: the pin record does not consist of 13 signal
identifiers — the fourteen signals the claim itself lists (and that
`printPinConfig` prints) are one more than that. -/
theorem pin_signal_count_not_thirteen :
    ((signalValues getDefaultConfig_ESP32.pins).length == 13) = false := by decide

set_option maxHeartbeats 1600000 in
/-- C6 (amended): the pin record consists of exactly FOURTEEN logical signal
identifiers — r1, g1, b1, r2, g2, b2, a, b, c, d, e, lat, oe, clk — and
`printPinConfig` renders each of them with its assigned value
(`NAME=value`) in its human-readable output. -/
theorem pin_record_fourteen_signals_rendered (p : hub75_pins_t) :
    (signalValues p).length = 14 ∧
    (signalValues p).map Prod.fst =
      ["R1", "G1", "B1", "R2", "G2", "B2",
       "A", "B", "C", "D", "E", "LAT", "OE", "CLK"] ∧
    ∀ pr ∈ signalValues p,
      containsFragment (printPinConfig p) (pr.1 ++ "=" ++ toString pr.2) := by
  refine ⟨rfl, rfl, ?_⟩
  intro pr hpr
  simp only [signalValues, List.mem_cons, List.not_mem_nil, or_false] at hpr
  rcases hpr with rfl | rfl | rfl | rfl | rfl | rfl | rfl | rfl | rfl | rfl | rfl | rfl | rfl | rfl
  · exact ⟨"HUB75 Pin Configuration:\n  Data (Upper): ",
      ", G1=" ++ toString p.g1 ++ ", B1=" ++ toString p.b1 ++ "\n  Data (Lower): R2=" ++ toString p.r2 ++ ", G2=" ++ toString p.g2 ++ ", B2=" ++ toString p.b2 ++ "\n  Address: A=" ++ toString p.a ++ ", B=" ++ toString p.b ++ ", C=" ++ toString p.c ++ ", D=" ++ toString p.d ++ ", E=" ++ toString p.e ++ "\n  Control: LAT=" ++ toString p.lat ++ ", OE=" ++ toString p.oe ++ ", CLK=" ++ toString p.clk ++ "\n", by
      apply String.ext
      simp [printPinConfig, String.data_append, List.append_assoc]⟩
  · exact ⟨"HUB75 Pin Configuration:\n  Data (Upper): R1=" ++ toString p.r1 ++ ", ",
      ", B1=" ++ toString p.b1 ++ "\n  Data (Lower): R2=" ++ toString p.r2 ++ ", G2=" ++ toString p.g2 ++ ", B2=" ++ toString p.b2 ++ "\n  Address: A=" ++ toString p.a ++ ", B=" ++ toString p.b ++ ", C=" ++ toString p.c ++ ", D=" ++ toString p.d ++ ", E=" ++ toString p.e ++ "\n  Control: LAT=" ++ toString p.lat ++ ", OE=" ++ toString p.oe ++ ", CLK=" ++ toString p.clk ++ "\n", by
      apply String.ext
      simp [printPinConfig, String.data_append, List.append_assoc]⟩
  · exact ⟨"HUB75 Pin Configuration:\n  Data (Upper): R1=" ++ toString p.r1 ++ ", G1=" ++ toString p.g1 ++ ", ",
      "\n  Data (Lower): R2=" ++ toString p.r2 ++ ", G2=" ++ toString p.g2 ++ ", B2=" ++ toString p.b2 ++ "\n  Address: A=" ++ toString p.a ++ ", B=" ++ toString p.b ++ ", C=" ++ toString p.c ++ ", D=" ++ toString p.d ++ ", E=" ++ toString p.e ++ "\n  Control: LAT=" ++ toString p.lat ++ ", OE=" ++ toString p.oe ++ ", CLK=" ++ toString p.clk ++ "\n", by
      apply String.ext
      simp [printPinConfig, String.data_append, List.append_assoc]⟩
  · exact ⟨"HUB75 Pin Configuration:\n  Data (Upper): R1=" ++ toString p.r1 ++ ", G1=" ++ toString p.g1 ++ ", B1=" ++ toString p.b1 ++ "\n  Data (Lower): ",
      ", G2=" ++ toString p.g2 ++ ", B2=" ++ toString p.b2 ++ "\n  Address: A=" ++ toString p.a ++ ", B=" ++ toString p.b ++ ", C=" ++ toString p.c ++ ", D=" ++ toString p.d ++ ", E=" ++ toString p.e ++ "\n  Control: LAT=" ++ toString p.lat ++ ", OE=" ++ toString p.oe ++ ", CLK=" ++ toString p.clk ++ "\n", by
      apply String.ext
      simp [printPinConfig, String.data_append, List.append_assoc]⟩
  · exact ⟨"HUB75 Pin Configuration:\n  Data (Upper): R1=" ++ toString p.r1 ++ ", G1=" ++ toString p.g1 ++ ", B1=" ++ toString p.b1 ++ "\n  Data (Lower): R2=" ++ toString p.r2 ++ ", ",
      ", B2=" ++ toString p.b2 ++ "\n  Address: A=" ++ toString p.a ++ ", B=" ++ toString p.b ++ ", C=" ++ toString p.c ++ ", D=" ++ toString p.d ++ ", E=" ++ toString p.e ++ "\n  Control: LAT=" ++ toString p.lat ++ ", OE=" ++ toString p.oe ++ ", CLK=" ++ toString p.clk ++ "\n", by
      apply String.ext
      simp [printPinConfig, String.data_append, List.append_assoc]⟩
  · exact ⟨"HUB75 Pin Configuration:\n  Data (Upper): R1=" ++ toString p.r1 ++ ", G1=" ++ toString p.g1 ++ ", B1=" ++ toString p.b1 ++ "\n  Data (Lower): R2=" ++ toString p.r2 ++ ", G2=" ++ toString p.g2 ++ ", ",
      "\n  Address: A=" ++ toString p.a ++ ", B=" ++ toString p.b ++ ", C=" ++ toString p.c ++ ", D=" ++ toString p.d ++ ", E=" ++ toString p.e ++ "\n  Control: LAT=" ++ toString p.lat ++ ", OE=" ++ toString p.oe ++ ", CLK=" ++ toString p.clk ++ "\n", by
      apply String.ext
      simp [printPinConfig, String.data_append, List.append_assoc]⟩
  · exact ⟨"HUB75 Pin Configuration:\n  Data (Upper): R1=" ++ toString p.r1 ++ ", G1=" ++ toString p.g1 ++ ", B1=" ++ toString p.b1 ++ "\n  Data (Lower): R2=" ++ toString p.r2 ++ ", G2=" ++ toString p.g2 ++ ", B2=" ++ toString p.b2 ++ "\n  Address: ",
      ", B=" ++ toString p.b ++ ", C=" ++ toString p.c ++ ", D=" ++ toString p.d ++ ", E=" ++ toString p.e ++ "\n  Control: LAT=" ++ toString p.lat ++ ", OE=" ++ toString p.oe ++ ", CLK=" ++ toString p.clk ++ "\n", by
      apply String.ext
      simp [printPinConfig, String.data_append, List.append_assoc]⟩
  · exact ⟨"HUB75 Pin Configuration:\n  Data (Upper): R1=" ++ toString p.r1 ++ ", G1=" ++ toString p.g1 ++ ", B1=" ++ toString p.b1 ++ "\n  Data (Lower): R2=" ++ toString p.r2 ++ ", G2=" ++ toString p.g2 ++ ", B2=" ++ toString p.b2 ++ "\n  Address: A=" ++ toString p.a ++ ", ",
      ", C=" ++ toString p.c ++ ", D=" ++ toString p.d ++ ", E=" ++ toString p.e ++ "\n  Control: LAT=" ++ toString p.lat ++ ", OE=" ++ toString p.oe ++ ", CLK=" ++ toString p.clk ++ "\n", by
      apply String.ext
      simp [printPinConfig, String.data_append, List.append_assoc]⟩
  · exact ⟨"HUB75 Pin Configuration:\n  Data (Upper): R1=" ++ toString p.r1 ++ ", G1=" ++ toString p.g1 ++ ", B1=" ++ toString p.b1 ++ "\n  Data (Lower): R2=" ++ toString p.r2 ++ ", G2=" ++ toString p.g2 ++ ", B2=" ++ toString p.b2 ++ "\n  Address: A=" ++ toString p.a ++ ", B=" ++ toString p.b ++ ", ",
      ", D=" ++ toString p.d ++ ", E=" ++ toString p.e ++ "\n  Control: LAT=" ++ toString p.lat ++ ", OE=" ++ toString p.oe ++ ", CLK=" ++ toString p.clk ++ "\n", by
      apply String.ext
      simp [printPinConfig, String.data_append, List.append_assoc]⟩
  · exact ⟨"HUB75 Pin Configuration:\n  Data (Upper): R1=" ++ toString p.r1 ++ ", G1=" ++ toString p.g1 ++ ", B1=" ++ toString p.b1 ++ "\n  Data (Lower): R2=" ++ toString p.r2 ++ ", G2=" ++ toString p.g2 ++ ", B2=" ++ toString p.b2 ++ "\n  Address: A=" ++ toString p.a ++ ", B=" ++ toString p.b ++ ", C=" ++ toString p.c ++ ", ",
      ", E=" ++ toString p.e ++ "\n  Control: LAT=" ++ toString p.lat ++ ", OE=" ++ toString p.oe ++ ", CLK=" ++ toString p.clk ++ "\n", by
      apply String.ext
      simp [printPinConfig, String.data_append, List.append_assoc]⟩
  · exact ⟨"HUB75 Pin Configuration:\n  Data (Upper): R1=" ++ toString p.r1 ++ ", G1=" ++ toString p.g1 ++ ", B1=" ++ toString p.b1 ++ "\n  Data (Lower): R2=" ++ toString p.r2 ++ ", G2=" ++ toString p.g2 ++ ", B2=" ++ toString p.b2 ++ "\n  Address: A=" ++ toString p.a ++ ", B=" ++ toString p.b ++ ", C=" ++ toString p.c ++ ", D=" ++ toString p.d ++ ", ",
      "\n  Control: LAT=" ++ toString p.lat ++ ", OE=" ++ toString p.oe ++ ", CLK=" ++ toString p.clk ++ "\n", by
      apply String.ext
      simp [printPinConfig, String.data_append, List.append_assoc]⟩
  · exact ⟨"HUB75 Pin Configuration:\n  Data (Upper): R1=" ++ toString p.r1 ++ ", G1=" ++ toString p.g1 ++ ", B1=" ++ toString p.b1 ++ "\n  Data (Lower): R2=" ++ toString p.r2 ++ ", G2=" ++ toString p.g2 ++ ", B2=" ++ toString p.b2 ++ "\n  Address: A=" ++ toString p.a ++ ", B=" ++ toString p.b ++ ", C=" ++ toString p.c ++ ", D=" ++ toString p.d ++ ", E=" ++ toString p.e ++ "\n  Control: ",
      ", OE=" ++ toString p.oe ++ ", CLK=" ++ toString p.clk ++ "\n", by
      apply String.ext
      simp [printPinConfig, String.data_append, List.append_assoc]⟩
  · exact ⟨"HUB75 Pin Configuration:\n  Data (Upper): R1=" ++ toString p.r1 ++ ", G1=" ++ toString p.g1 ++ ", B1=" ++ toString p.b1 ++ "\n  Data (Lower): R2=" ++ toString p.r2 ++ ", G2=" ++ toString p.g2 ++ ", B2=" ++ toString p.b2 ++ "\n  Address: A=" ++ toString p.a ++ ", B=" ++ toString p.b ++ ", C=" ++ toString p.c ++ ", D=" ++ toString p.d ++ ", E=" ++ toString p.e ++ "\n  Control: LAT=" ++ toString p.lat ++ ", ",
      ", CLK=" ++ toString p.clk ++ "\n", by
      apply String.ext
      simp [printPinConfig, String.data_append, List.append_assoc]⟩
  · exact ⟨"HUB75 Pin Configuration:\n  Data (Upper): R1=" ++ toString p.r1 ++ ", G1=" ++ toString p.g1 ++ ", B1=" ++ toString p.b1 ++ "\n  Data (Lower): R2=" ++ toString p.r2 ++ ", G2=" ++ toString p.g2 ++ ", B2=" ++ toString p.b2 ++ "\n  Address: A=" ++ toString p.a ++ ", B=" ++ toString p.b ++ ", C=" ++ toString p.c ++ ", D=" ++ toString p.d ++ ", E=" ++ toString p.e ++ "\n  Control: LAT=" ++ toString p.lat ++ ", OE=" ++ toString p.oe ++ ", ",
      "\n", by
      apply String.ext
      simp [printPinConfig, String.data_append, List.append_assoc]⟩

theorem pin_record_fourteen_signals_rendered_witness :
    ("R1", (25 : Int)) ∈ signalValues getDefaultConfig_ESP32.pins ∧
    containsFragment (printPinConfig getDefaultConfig_ESP32.pins)
      ("R1" ++ "=" ++ toString (25 : Int)) :=
  ⟨by decide,
   (pin_record_fourteen_signals_rendered getDefaultConfig_ESP32.pins).2.2
     ("R1", (25 : Int)) (by decide)⟩

/-- C7: every configuration field has a defined default given by the
`HUB75_CONFIG_DEFAULT()` baseline, and overriding fields leaves all other
fields at their baseline values: whatever the baseline record `d`,
`getDefaultConfig_32x32` (which assigns only dimensions, scan pattern and
pins) keeps `chain_length`, `output_clock_speed`, `bit_depth`,
`min_refresh_rate`, `double_buffer`, `temporal_dither`, `gamma_mode`,
`brightness`, `latch_blanking` and `clk_phase_inverted` at `d`'s values. -/
theorem defaults_preserved_32x32 (d : hub75_config_t) :
    getDefaultConfig_32x32 = getDefaultConfig_32x32_from HUB75_CONFIG_DEFAULT ∧
    (getDefaultConfig_32x32_from d).chain_length = d.chain_length ∧
    (getDefaultConfig_32x32_from d).output_clock_speed = d.output_clock_speed ∧
    (getDefaultConfig_32x32_from d).bit_depth = d.bit_depth ∧
    (getDefaultConfig_32x32_from d).min_refresh_rate = d.min_refresh_rate ∧
    (getDefaultConfig_32x32_from d).double_buffer = d.double_buffer ∧
    (getDefaultConfig_32x32_from d).temporal_dither = d.temporal_dither ∧
    (getDefaultConfig_32x32_from d).gamma_mode = d.gamma_mode ∧
    (getDefaultConfig_32x32_from d).brightness = d.brightness ∧
    (getDefaultConfig_32x32_from d).latch_blanking = d.latch_blanking ∧
    (getDefaultConfig_32x32_from d).clk_phase_inverted = d.clk_phase_inverted :=
  ⟨rfl, rfl, rfl, rfl, rfl, rfl, rfl, rfl, rfl, rfl, rfl⟩

/-- C8: each example configuration constructor is deterministic — threading
a call through an arbitrary module state `σ` (there is no module-level
mutable state for the bodies to touch), two calls from equal baselines
return identical records and leave the state unchanged. -/
theorem example_constructors_deterministic (S : Type) (σ₁ σ₂ : S)
    (d : hub75_config_t) :
    ((callWithState S getDefaultConfig_ESP32_from d σ₁).1 =
        (callWithState S getDefaultConfig_ESP32_from d σ₂).1 ∧
      (callWithState S getDefaultConfig_ESP32_from d σ₁).2 = σ₁) ∧
    ((callWithState S getDefaultConfig_32x32_from d σ₁).1 =
        (callWithState S getDefaultConfig_32x32_from d σ₂).1 ∧
      (callWithState S getDefaultConfig_32x32_from d σ₁).2 = σ₁) ∧
    ((callWithState S getDefaultConfig_ESP32S3_from d σ₁).1 =
        (callWithState S getDefaultConfig_ESP32S3_from d σ₂).1 ∧
      (callWithState S getDefaultConfig_ESP32S3_from d σ₁).2 = σ₁) ∧
    ((callWithState S getDefaultConfig_ESP32C6_from d σ₁).1 =
        (callWithState S getDefaultConfig_ESP32C6_from d σ₂).1 ∧
      (callWithState S getDefaultConfig_ESP32C6_from d σ₁).2 = σ₁) ∧
    ((callWithState S getDefaultConfig_Chained_from d σ₁).1 =
        (callWithState S getDefaultConfig_Chained_from d σ₂).1 ∧
      (callWithState S getDefaultConfig_Chained_from d σ₁).2 = σ₁) ∧
    ((callWithState S getUserConfig_ESP32S3_Dual64x64_from d σ₁).1 =
        (callWithState S getUserConfig_ESP32S3_Dual64x64_from d σ₂).1 ∧
      (callWithState S getUserConfig_ESP32S3_Dual64x64_from d σ₁).2 = σ₁) :=
  ⟨⟨rfl, rfl⟩, ⟨rfl, rfl⟩, ⟨rfl, rfl⟩, ⟨rfl, rfl⟩, ⟨rfl, rfl⟩, ⟨rfl, rfl⟩⟩

/-- C9: in every example configuration of pins_example.h, the pin values
assigned to the fourteen signal fields that are not the `-1` unused
sentinel are pairwise distinct — no GPIO number drives two signals. -/
theorem example_pins_pairwise_distinct :
    assignedPinsDistinct getDefaultConfig_ESP32.pins ∧
    assignedPinsDistinct getDefaultConfig_32x32.pins ∧
    assignedPinsDistinct getDefaultConfig_ESP32S3.pins ∧
    assignedPinsDistinct getDefaultConfig_ESP32C6.pins ∧
    assignedPinsDistinct getDefaultConfig_Chained.pins ∧
    assignedPinsDistinct getUserConfig_ESP32S3_Dual64x64.pins := by
  refine ⟨by decide, by decide, by decide, by decide, by decide, by decide⟩

/-- C10: every example configuration keeps the scan pattern consistent with
the panel height — the 64-row examples use 1/32 scan, the 32-row example
uses 1/16 scan — so the scan pattern's row-pair count equals `height / 2`
in every example. -/
theorem scan_pattern_matches_height :
    (getDefaultConfig_ESP32.height = 64 ∧
      getDefaultConfig_ESP32.scan_pattern = .HUB75_SCAN_1_32 ∧
      scanRows getDefaultConfig_ESP32.scan_pattern =
        getDefaultConfig_ESP32.height / 2) ∧
    (getDefaultConfig_32x32.height = 32 ∧
      getDefaultConfig_32x32.scan_pattern = .HUB75_SCAN_1_16 ∧
      scanRows getDefaultConfig_32x32.scan_pattern =
        getDefaultConfig_32x32.height / 2) ∧
    (getDefaultConfig_ESP32S3.height = 64 ∧
      getDefaultConfig_ESP32S3.scan_pattern = .HUB75_SCAN_1_32 ∧
      scanRows getDefaultConfig_ESP32S3.scan_pattern =
        getDefaultConfig_ESP32S3.height / 2) ∧
    (getDefaultConfig_ESP32C6.height = 64 ∧
      getDefaultConfig_ESP32C6.scan_pattern = .HUB75_SCAN_1_32 ∧
      scanRows getDefaultConfig_ESP32C6.scan_pattern =
        getDefaultConfig_ESP32C6.height / 2) ∧
    (getDefaultConfig_Chained.height = 64 ∧
      getDefaultConfig_Chained.scan_pattern = .HUB75_SCAN_1_32 ∧
      scanRows getDefaultConfig_Chained.scan_pattern =
        getDefaultConfig_Chained.height / 2) ∧
    (getUserConfig_ESP32S3_Dual64x64.height = 64 ∧
      getUserConfig_ESP32S3_Dual64x64.scan_pattern = .HUB75_SCAN_1_32 ∧
      scanRows getUserConfig_ESP32S3_Dual64x64.scan_pattern =
        getUserConfig_ESP32S3_Dual64x64.height / 2) := by
  refine ⟨⟨by decide, by decide, by decide⟩, ⟨by decide, by decide, by decide⟩,
    ⟨by decide, by decide, by decide⟩, ⟨by decide, by decide, by decide⟩,
    ⟨by decide, by decide, by decide⟩, ⟨by decide, by decide, by decide⟩⟩

theorem defaults_preserved_32x32_witness :
    (getDefaultConfig_32x32_from HUB75_CONFIG_DEFAULT).chain_length =
      HUB75_CONFIG_DEFAULT.chain_length :=
  (defaults_preserved_32x32 HUB75_CONFIG_DEFAULT).2.1

theorem example_constructors_deterministic_witness :
    (callWithState Nat getDefaultConfig_ESP32_from HUB75_CONFIG_DEFAULT 0).1 =
      (callWithState Nat getDefaultConfig_ESP32_from HUB75_CONFIG_DEFAULT 1).1 :=
  (example_constructors_deterministic Nat 0 1 HUB75_CONFIG_DEFAULT).1.1
